import Mathlib

/-
A shallow embedding of the gameplay core of the Desktop_mini_game repository.

The embedding covers:
- the brick-breaker physics and collision loop of src/Games/Brick_game.py
  (classes Paddle, Ball, Brick and the method BrickBreakerGame.game_loop,
  together with reset_ball, end_game and create_bricks);
- the high-score bookkeeping and settings persistence of src/Game_launcher.py
  (GameLauncher.load_settings, save_settings, update_high_score and the
  three game-ended handlers).

Positions and velocities are modelled as rationals (the Python code computes
with machine floats, but every expression the claims touch is exact dyadic
or small-denominator arithmetic), integer counters as integers.  Mutation of
the Python objects becomes explicit state passing.  The call
QSoundEffect.play and every label/paint update are pure UI effects with no
bearing on gameplay state and are omitted; the won flag passed to end_game
is recorded in the field outcome, and whether save_settings was invoked is
recorded as a Bool alongside the updated settings.
-/

namespace DesktopMiniGame

/-- Axis-aligned rectangle, the model of QRectF as produced by get_rect. -/
structure Rect where
  x : ℚ
  y : ℚ
  w : ℚ
  h : ℚ
deriving DecidableEq

/-- QRectF.intersects: true when the two rectangles have a non-empty area of
overlap (edges merely touching do not count). -/
def Rect.intersects (a b : Rect) : Bool :=
  decide (a.x < b.x + b.w) && decide (b.x < a.x + a.w) &&
  decide (a.y < b.y + b.h) && decide (b.y < a.y + a.h)

/-- Python floor division a // b on numbers. -/
def floorDiv (a b : ℚ) : ℚ := ((⌊a / b⌋ : ℤ) : ℚ)

/-- Class Paddle of Brick_game.py. -/
structure Paddle where
  x : ℚ
  y : ℚ
  width : ℚ
  height : ℚ
  speed : ℚ
deriving DecidableEq

/-- Paddle.move_left: x = max(0, x - speed); the screen-width argument is
accepted and ignored, as in the source. -/
def Paddle.move_left (p : Paddle) (_screen_width : ℚ) : Paddle :=
  { p with x := max 0 (p.x - p.speed) }

/-- Paddle.move_right: x = min(screen_width - width, x + speed). -/
def Paddle.move_right (p : Paddle) (screen_width : ℚ) : Paddle :=
  { p with x := min (screen_width - p.width) (p.x + p.speed) }

/-- Paddle.get_rect. -/
def Paddle.get_rect (p : Paddle) : Rect :=
  ⟨p.x, p.y, p.width, p.height⟩

/-- Class Ball of Brick_game.py. -/
structure Ball where
  x : ℚ
  y : ℚ
  radius : ℚ
  speed_x : ℚ
  speed_y : ℚ
  speed_multiplier : ℚ
deriving DecidableEq

/-- Ball.move: position += speed * speed_multiplier. -/
def Ball.move (b : Ball) : Ball :=
  { b with
    x := b.x + b.speed_x * b.speed_multiplier,
    y := b.y + b.speed_y * b.speed_multiplier }

/-- Ball.bounce_x: negate the horizontal speed. -/
def Ball.bounce_x (b : Ball) : Ball :=
  { b with speed_x := -b.speed_x }

/-- Ball.bounce_y: negate the vertical speed. -/
def Ball.bounce_y (b : Ball) : Ball :=
  { b with speed_y := -b.speed_y }

/-- Ball.get_rect: the bounding box centred at (x, y) with side 2 * radius. -/
def Ball.get_rect (b : Ball) : Rect :=
  ⟨b.x - b.radius, b.y - b.radius, b.radius * 2, b.radius * 2⟩

/-- Class Brick of Brick_game.py; color is the index into the colour table. -/
structure Brick where
  x : ℚ
  y : ℚ
  width : ℚ
  height : ℚ
  color : ℕ
  hits : ℤ
  max_hits : ℤ
  destroyed : Bool
deriving DecidableEq

/-- Brick.hit: decrement hits; when hits reaches zero or below, mark the
brick destroyed and report True, else report False. -/
def Brick.hit (b : Brick) : Brick × Bool :=
  let hits := b.hits - 1
  if hits ≤ 0 then ({ b with hits := hits, destroyed := true }, true)
  else ({ b with hits := hits }, false)

/-- Brick.get_rect. -/
def Brick.get_rect (b : Brick) : Rect :=
  ⟨b.x, b.y, b.width, b.height⟩

/-- BrickBreakerGame.create_bricks: 6 rows by cols columns, where
cols = (screen_width - 100) // (brick_width + spacing); rows 0 to 3 take one
hit, rows 4 and 5 take two. -/
def create_bricks (screen_width : ℚ) : List Brick :=
  let cols : ℕ := (⌊(screen_width - 100) / 85⌋ : ℤ).toNat
  (List.range 6).flatMap (fun row =>
    (List.range cols).map (fun col =>
      { x := 50 + (col : ℚ) * 85, y := 100 + (row : ℚ) * 35,
        width := 80, height := 30, color := row % 6,
        hits := if row < 4 then 1 else 2,
        max_hits := if row < 4 then 1 else 2,
        destroyed := false }))

/-- Per-tick keyboard input: whether the left and right arrow keys are held. -/
structure Input where
  left : Bool
  right : Bool
deriving DecidableEq

/-- The gameplay state owned by a BrickBreakerGame session.  outcome records
the won flag of the last end_game call (none while no end_game has run). -/
structure GameState where
  score : ℤ
  lives : ℤ
  game_active : Bool
  ball_attached : Bool
  paddle : Paddle
  ball : Ball
  bricks : List Brick
  screen_w : ℚ
  screen_h : ℚ
  outcome : Option Bool
deriving DecidableEq

/-- The key-handling prefix of game_loop: move left while Key_Left is held,
then move right while Key_Right is held. -/
def paddleInput (inp : Input) (screen_width : ℚ) (p : Paddle) : Paddle :=
  let p1 := if inp.left then p.move_left screen_width else p
  if inp.right then p1.move_right screen_width else p1

/-- Wall collision section of game_loop: bounce_x when the ball touches the
left or right boundary, then bounce_y when it touches the top. -/
def wallBounce (screen_width : ℚ) (b : Ball) : Ball :=
  let b1 := if b.x - b.radius ≤ 0 ∨ screen_width ≤ b.x + b.radius
    then b.bounce_x else b
  if b1.y - b1.radius ≤ 0 then b1.bounce_y else b1

/-- Paddle collision section of game_loop: when the ball box intersects the
paddle box and the ball moves downward, negate speed_y and set
speed_x = (hit_pos - 0.5) * 10 with hit_pos = (ball.x - paddle.x) / paddle.width. -/
def paddleBounce (p : Paddle) (b : Ball) : Ball :=
  if b.get_rect.intersects p.get_rect = true ∧ 0 < b.speed_y then
    let b2 := b.bounce_y
    { b2 with speed_x := ((b.x - p.x) / p.width - 1/2) * 10 }
  else b

/-- Brick collision loop of game_loop: scan the bricks in order; the first
brick that is not destroyed and whose box intersects ball_rect receives one
hit (10 points when it is destroyed by the hit, else 5), the ball bounces on
the axis of larger centre offset, and the scan stops.  Returns the updated
brick list, the score delta and the updated ball.  brickBounce is the bounce
axis choice of lines 376-380: compare the absolute horizontal and vertical
offsets from the ball centre to the brick centre. -/
def brickBounce (ball : Ball) (b : Brick) : Ball :=
  let br := b.get_rect
  if |ball.x - (br.x + br.w / 2)| > |ball.y - (br.y + br.h / 2)| then
    ball.bounce_x
  else
    ball.bounce_y

def brickScan (ball : Ball) (ball_rect : Rect) : List Brick → List Brick × ℤ × Ball
  | [] => ([], 0, ball)
  | b :: rest =>
    if b.destroyed = false ∧ ball_rect.intersects b.get_rect = true then
      let hit := b.hit
      let pts : ℤ := if hit.2 then 10 else 5
      (hit.1 :: rest, pts, brickBounce ball b)
    else
      let r := brickScan ball ball_rect rest
      (b :: r.1, r.2.1, r.2.2)

/-- BrickBreakerGame.reset_ball: put the ball back on the paddle with the
default speed (5, -5) and attach it. -/
def reset_ball (s : GameState) : GameState :=
  { s with
    ball := { s.ball with
      x := s.paddle.x + floorDiv s.paddle.width 2,
      y := s.paddle.y - s.ball.radius - 5,
      speed_x := 5, speed_y := -5 },
    ball_attached := true }

/-- BrickBreakerGame.end_game: deactivate the session and record the won
flag (the source stops the timer, swaps labels and emits the score). -/
def end_game (won : Bool) (s : GameState) : GameState :=
  { s with game_active := false, outcome := some won }

/-- BrickBreakerGame.game_loop, one timer tick.  Mirrors the source line by
line: early return when inactive; key handling; when the ball is attached,
only reposition it over the paddle; otherwise move the ball, resolve wall,
paddle and brick collisions, handle the bottom exit and check the win
condition. -/
def game_loop (inp : Input) (s : GameState) : GameState :=
  if s.game_active = false then s
  else
    let paddle := paddleInput inp s.screen_w s.paddle
    if s.ball_attached then
      { s with
        paddle := paddle,
        ball := { s.ball with
          x := paddle.x + floorDiv paddle.width 2,
          y := paddle.y - s.ball.radius - 5 } }
    else
      let b1 := wallBounce s.screen_w s.ball.move
      let ball_rect := b1.get_rect
      let b2 := paddleBounce paddle b1
      let scan := brickScan b2 ball_rect s.bricks
      let s1 := { s with
        paddle := paddle, ball := scan.2.2, bricks := scan.1,
        score := s.score + scan.2.1 }
      let s2 :=
        if s.screen_h < scan.2.2.y - scan.2.2.radius then
          if s1.lives - 1 ≤ 0 then end_game false { s1 with lives := s1.lives - 1 }
          else reset_ball { s1 with lives := s1.lives - 1 }
        else s1
      if s2.bricks.all (fun b => b.destroyed) then end_game true s2 else s2

/-- A whole session segment: fold game_loop over a list of per-tick inputs. -/
def runTicks (inputs : List Input) (s : GameState) : GameState :=
  inputs.foldl (fun st i => game_loop i st) s

/-- The high-score record persisted by the launcher in data/settings.json. -/
structure HighScores where
  click_game : ℤ
  brick_game : ℤ
  memory_game : ℤ
deriving DecidableEq

/-- The defaults GameLauncher.load_settings falls back to: zero for the
click and brick games, the sentinel 999 (lower is better) for the memory
game. -/
def default_settings : HighScores :=
  { click_game := 0, brick_game := 0, memory_game := 999 }

/-- The possible states of the settings file on disk: absent, present but
not parseable by json.load, or present and holding a score record. -/
inductive SettingsFile
  | missing
  | malformed
  | valid (hs : HighScores)
deriving DecidableEq

/-- GameLauncher.load_settings: a missing file yields the defaults (and
writes them out, recorded by the Bool); a file whose read raises yields the
defaults without writing; a readable file is taken as is. -/
def load_settings : SettingsFile → HighScores × Bool
  | .missing => (default_settings, true)
  | .malformed => (default_settings, false)
  | .valid hs => (hs, false)

/-- The three persisted score keys. -/
inductive GameName
  | click_game
  | brick_game
  | memory_game
deriving DecidableEq

/-- Read one key of the record, the model of settings access by name. -/
def HighScores.get : HighScores → GameName → ℤ
  | hs, .click_game => hs.click_game
  | hs, .brick_game => hs.brick_game
  | hs, .memory_game => hs.memory_game

/-- Write one key of the record. -/
def HighScores.set : HighScores → GameName → ℤ → HighScores
  | hs, .click_game, v => { hs with click_game := v }
  | hs, .brick_game, v => { hs with brick_game := v }
  | hs, .memory_game, v => { hs with memory_game := v }

/-- GameLauncher.update_high_score: store the new score and call
save_settings only when it is strictly higher than the stored value; the
Bool records whether save_settings ran. -/
def update_high_score (hs : HighScores) (game_name : GameName) (score : ℤ) :
    HighScores × Bool :=
  if hs.get game_name < score then (hs.set game_name score, true) else (hs, false)

/-- GameLauncher.on_click_game_ended. -/
def on_click_game_ended (hs : HighScores) (score : ℤ) : HighScores × Bool :=
  update_high_score hs .click_game score

/-- GameLauncher.on_brick_game_ended. -/
def on_brick_game_ended (hs : HighScores) (score : ℤ) : HighScores × Bool :=
  update_high_score hs .brick_game score

/-- GameLauncher.on_memory_game_ended: its own lower-is-better rule, store
and save only when moves is strictly below the stored count. -/
def on_memory_game_ended (hs : HighScores) (moves : ℤ) : HighScores × Bool :=
  if moves < hs.memory_game then ({ hs with memory_game := moves }, true)
  else (hs, false)

/-- One scan step relates each input brick to the output brick in the same
position: either unchanged, or an undestroyed brick replaced by its hit
result. -/
def BrickStep (b b2 : Brick) : Prop :=
  b2 = b ∨ (b.destroyed = false ∧ b2 = (b.hit).1)

/-- What a whole session segment can do to one brick: hits never grows, and
a destroyed brick is frozen. -/
def BrickEvolves (b b2 : Brick) : Prop :=
  b2.hits ≤ b.hits ∧ (b.destroyed = true → b2 = b)

/-- The shape every brick of a session satisfies: a destroyed brick carries
zero hits, a live brick at least one. -/
def BrickWF (b : Brick) : Prop :=
  (b.destroyed = true → b.hits = 0) ∧ (b.destroyed = false → 1 ≤ b.hits)

/-- A two-hit demo brick as laid out by create_bricks rows 4 and 5. -/
def demoBrick : Brick :=
  { x := 0, y := 0, width := 80, height := 30, color := 0,
    hits := 2, max_hits := 2, destroyed := false }

/-- A ball rectangle overlapping demoBrick. -/
def demoRect : Rect := ⟨0, 0, 20, 20⟩

/-- A ball sitting inside demoBrick. -/
def demoBall : Ball :=
  { x := 10, y := 10, radius := 10, speed_x := 5, speed_y := 5,
    speed_multiplier := 1 }

/-- A second hittable brick placed after demoBrick; the scan must stop
before it. -/
def demoBrick2 : Brick :=
  { x := 5, y := 5, width := 80, height := 30, color := 1,
    hits := 1, max_hits := 1, destroyed := false }

/-- An already destroyed brick placed before demoBrick. -/
def demoBrickGone : Brick :=
  { x := 0, y := 0, width := 80, height := 30, color := 2,
    hits := 0, max_hits := 1, destroyed := true }

/-- The paddle of the C2 scenario: x = 340, width 120, at the default
height for a 1080-pixel screen. -/
def scenarioPaddle : Paddle :=
  { x := 340, y := 980, width := 120, height := 20, speed := 15 }

/-- A ball grazing the left edge of scenarioPaddle: its box overlaps the
paddle box while its centre x = 335 lies outside the paddle span. -/
def grazeBall : Ball :=
  { x := 335, y := 980, radius := 10, speed_x := 0, speed_y := 5,
    speed_multiplier := 1 }

/-- The ball of the straight-up bounce scenario: centre x = 400 over the
paddle, moving down. -/
def centerBall : Ball :=
  { x := 400, y := 980, radius := 10, speed_x := 5, speed_y := 5,
    speed_multiplier := 1 }

/-- A tick with no keys held. -/
def demoInput : Input := { left := false, right := false }

/-- A paddle at its start position on a 1920 by 1080 screen. -/
def demoPaddle : Paddle :=
  { x := 900, y := 980, width := 120, height := 20, speed := 15 }

/-- An active session whose free ball has fallen past the bottom of the
screen, with three lives and the demo brick intact at the top. -/
def fallState : GameState :=
  { score := 7, lives := 3, game_active := true, ball_attached := false,
    paddle := demoPaddle,
    ball := { x := 960, y := 2000, radius := 10, speed_x := 0, speed_y := 5,
              speed_multiplier := 1 },
    bricks := [demoBrick], screen_w := 1920, screen_h := 1080,
    outcome := none }

/-- fallState down to its last life. -/
def lossState : GameState :=
  { fallState with lives := 1 }

/-- A session that already ended as a loss. -/
def terminalState : GameState :=
  { fallState with game_active := false, lives := 0, outcome := some false }

/-- The one remaining brick of the win scenario, one hit from destruction. -/
def lastBrick : Brick :=
  { x := 900, y := 500, width := 80, height := 30, color := 0,
    hits := 1, max_hits := 1, destroyed := false }

/-- An active session about to destroy its last brick this tick. -/
def winState : GameState :=
  { score := 40, lives := 1, game_active := true, ball_attached := false,
    paddle := demoPaddle,
    ball := { x := 940, y := 510, radius := 10, speed_x := 0, speed_y := 5,
              speed_multiplier := 1 },
    bricks := [lastBrick], screen_w := 1920, screen_h := 1080,
    outcome := none }

/-- An active session with the ball attached to the paddle. -/
def attachState : GameState :=
  { score := 12, lives := 2, game_active := true, ball_attached := true,
    paddle := demoPaddle,
    ball := { x := 960, y := 930, radius := 10, speed_x := 5, speed_y := -5,
              speed_multiplier := 1 },
    bricks := [demoBrick, demoBrickGone], screen_w := 1920, screen_h := 1080,
    outcome := none }

/-! ### Basic preservation lemmas: bounces and collision phases touch only
the speed components of the ball. -/

@[simp] theorem Ball.bounce_x_x (b : Ball) : b.bounce_x.x = b.x := rfl

@[simp] theorem Ball.bounce_x_y (b : Ball) : b.bounce_x.y = b.y := rfl

@[simp] theorem Ball.bounce_x_radius (b : Ball) : b.bounce_x.radius = b.radius := rfl

@[simp] theorem Ball.bounce_y_x (b : Ball) : b.bounce_y.x = b.x := rfl

@[simp] theorem Ball.bounce_y_y (b : Ball) : b.bounce_y.y = b.y := rfl

@[simp] theorem Ball.bounce_y_radius (b : Ball) : b.bounce_y.radius = b.radius := rfl

@[simp] theorem wallBounce_x (W : ℚ) (b : Ball) : (wallBounce W b).x = b.x := by
  unfold wallBounce; dsimp only; split_ifs <;> rfl

@[simp] theorem wallBounce_y (W : ℚ) (b : Ball) : (wallBounce W b).y = b.y := by
  unfold wallBounce; dsimp only; split_ifs <;> rfl

@[simp] theorem wallBounce_radius (W : ℚ) (b : Ball) :
    (wallBounce W b).radius = b.radius := by
  unfold wallBounce; dsimp only; split_ifs <;> rfl

@[simp] theorem paddleBounce_x (p : Paddle) (b : Ball) : (paddleBounce p b).x = b.x := by
  unfold paddleBounce; dsimp only; split_ifs <;> rfl

@[simp] theorem paddleBounce_y (p : Paddle) (b : Ball) : (paddleBounce p b).y = b.y := by
  unfold paddleBounce; dsimp only; split_ifs <;> rfl

@[simp] theorem paddleBounce_radius (p : Paddle) (b : Ball) :
    (paddleBounce p b).radius = b.radius := by
  unfold paddleBounce; dsimp only; split_ifs <;> rfl

@[simp] theorem brickBounce_x (ball : Ball) (b : Brick) :
    (brickBounce ball b).x = ball.x := by
  unfold brickBounce; dsimp only; split_ifs <;> rfl

@[simp] theorem brickBounce_y (ball : Ball) (b : Brick) :
    (brickBounce ball b).y = ball.y := by
  unfold brickBounce; dsimp only; split_ifs <;> rfl

@[simp] theorem brickBounce_radius (ball : Ball) (b : Brick) :
    (brickBounce ball b).radius = ball.radius := by
  unfold brickBounce; dsimp only; split_ifs <;> rfl

@[simp] theorem brickScan_ball_x (ball : Ball) (rect : Rect) :
    ∀ bs : List Brick, (brickScan ball rect bs).2.2.x = ball.x
  | [] => rfl
  | b :: rest => by
    by_cases h : b.destroyed = false ∧ rect.intersects b.get_rect = true
    · simp [brickScan, h]
    · simp [brickScan, h, brickScan_ball_x ball rect rest]

@[simp] theorem brickScan_ball_y (ball : Ball) (rect : Rect) :
    ∀ bs : List Brick, (brickScan ball rect bs).2.2.y = ball.y
  | [] => rfl
  | b :: rest => by
    by_cases h : b.destroyed = false ∧ rect.intersects b.get_rect = true
    · simp [brickScan, h]
    · simp [brickScan, h, brickScan_ball_y ball rect rest]

@[simp] theorem brickScan_ball_radius (ball : Ball) (rect : Rect) :
    ∀ bs : List Brick, (brickScan ball rect bs).2.2.radius = ball.radius
  | [] => rfl
  | b :: rest => by
    by_cases h : b.destroyed = false ∧ rect.intersects b.get_rect = true
    · simp [brickScan, h]
    · simp [brickScan, h, brickScan_ball_radius ball rect rest]

@[simp] theorem brickScan_length (ball : Ball) (rect : Rect) :
    ∀ bs : List Brick, (brickScan ball rect bs).1.length = bs.length
  | [] => rfl
  | b :: rest => by
    by_cases h : b.destroyed = false ∧ rect.intersects b.get_rect = true
    · simp [brickScan, h]
    · simp [brickScan, h, brickScan_length ball rect rest]

/-- When no brick in the list is both undestroyed and intersecting, the scan
is the identity: no brick changes, no points, no bounce. -/
theorem brickScan_of_none (ball : Ball) (rect : Rect) :
    ∀ bs : List Brick,
      (∀ b ∈ bs, b.destroyed = true ∨ rect.intersects b.get_rect = false) →
      brickScan ball rect bs = (bs, 0, ball)
  | [], _ => rfl
  | b :: rest, h => by
    have hna : ¬(b.destroyed = false ∧ rect.intersects b.get_rect = true) := by
      rintro ⟨h1, h2⟩
      rcases h b (List.mem_cons_self b rest) with hb | hb
      · rw [h1] at hb; exact Bool.noConfusion hb
      · rw [h2] at hb; exact Bool.noConfusion hb
    have hrest := brickScan_of_none ball rect rest
      (fun a ha => h a (List.mem_cons_of_mem b ha))
    simp [brickScan, hna, hrest]

/-- Scanning a list whose prefix has no hittable brick and whose next brick
is hittable: exactly that brick is hit, the rest of the list is untouched,
the score delta is 10 when the hit destroys it and 5 otherwise. -/
theorem brickScan_first (ball : Ball) (rect : Rect) (b : Brick)
    (hb : b.destroyed = false) (hi : rect.intersects b.get_rect = true) :
    ∀ (pre : List Brick),
      (∀ a ∈ pre, a.destroyed = true ∨ rect.intersects a.get_rect = false) →
      ∀ (post : List Brick),
        brickScan ball rect (pre ++ b :: post) =
          (pre ++ (b.hit).1 :: post, if (b.hit).2 then 10 else 5, brickBounce ball b)
  | [], _, post => by
    simp [brickScan, hb, hi]
  | a :: pre, h, post => by
    have hna : ¬(a.destroyed = false ∧ rect.intersects a.get_rect = true) := by
      rintro ⟨h1, h2⟩
      rcases h a (List.mem_cons_self a pre) with ha | ha
      · rw [h1] at ha; exact Bool.noConfusion ha
      · rw [h2] at ha; exact Bool.noConfusion ha
    have ih := brickScan_first ball rect b hb hi pre
      (fun c hc => h c (List.mem_cons_of_mem a hc)) post
    simp only [List.cons_append, brickScan, if_neg hna, List.append_eq]
    rw [ih]

/-- An undestroyed brick the ball rectangle does not intersect survives the
scan unchanged (it can never be the brick the scan selects). -/
theorem brickScan_mem_untouched (ball : Ball) (rect : Rect) (b : Brick)
    (hb : b.destroyed = false) (hi : rect.intersects b.get_rect = false) :
    ∀ bs : List Brick, b ∈ bs → b ∈ (brickScan ball rect bs).1
  | [], h => absurd h (List.not_mem_nil b)
  | a :: rest, h => by
    by_cases ha : a.destroyed = false ∧ rect.intersects a.get_rect = true
    · rcases List.mem_cons.mp h with h | h
      · subst h; rw [ha.2] at hi; exact Bool.noConfusion hi
      · simp only [brickScan, if_pos ha]
        exact List.mem_cons_of_mem _ h
    · simp only [brickScan, if_neg ha]
      rcases List.mem_cons.mp h with h | h
      · exact h ▸ List.mem_cons_self _ _
      · exact List.mem_cons_of_mem _
          (brickScan_mem_untouched ball rect b hb hi rest h)

theorem brickScan_forall2 (ball : Ball) (rect : Rect) :
    ∀ bs : List Brick, List.Forall₂ BrickStep bs (brickScan ball rect bs).1
  | [] => List.Forall₂.nil
  | b :: rest => by
    by_cases h : b.destroyed = false ∧ rect.intersects b.get_rect = true
    · simp only [brickScan, if_pos h]
      exact List.Forall₂.cons (Or.inr ⟨h.1, rfl⟩)
        (List.forall₂_same.mpr (fun a _ => Or.inl rfl))
    · simp only [brickScan, if_neg h]
      exact List.Forall₂.cons (Or.inl rfl) (brickScan_forall2 ball rect rest)

@[simp] theorem Ball.move_radius (b : Ball) : b.move.radius = b.radius := rfl

@[simp] theorem Ball.move_speed_x (b : Ball) : b.move.speed_x = b.speed_x := rfl

@[simp] theorem Ball.move_speed_y (b : Ball) : b.move.speed_y = b.speed_y := rfl

theorem Brick.hit_hits (b : Brick) : (b.hit).1.hits = b.hits - 1 := by
  unfold Brick.hit; dsimp only; split_ifs <;> rfl

theorem Brick.hit_of_le (b : Brick) (h : b.hits - 1 ≤ 0) :
    (b.hit).1.destroyed = true ∧ (b.hit).2 = true := by
  unfold Brick.hit; dsimp only; rw [if_pos h]; exact ⟨rfl, rfl⟩

theorem Brick.hit_of_pos (b : Brick) (h : ¬(b.hits - 1 ≤ 0)) :
    (b.hit).1.destroyed = b.destroyed ∧ (b.hit).2 = false := by
  unfold Brick.hit; dsimp only; rw [if_neg h]; exact ⟨rfl, rfl⟩

/-! ### Brick-game claims at the collision-scan level -/

/-- Claim C1: when the ball box intersects the first undestroyed brick of
the scan, exactly one hit is applied to that brick: hits is decremented by
one; when it reaches zero the brick is marked destroyed and the tick scores
10 points, otherwise the brick stays undestroyed and the tick scores 5. -/
theorem C1_brick_hit_scoring (ball : Ball) (rect : Rect) (pre post : List Brick)
    (b : Brick)
    (hpre : ∀ a ∈ pre, a.destroyed = true ∨ rect.intersects a.get_rect = false)
    (hb : b.destroyed = false) (hi : rect.intersects b.get_rect = true) :
    (brickScan ball rect (pre ++ b :: post)).1 = pre ++ (b.hit).1 :: post ∧
    (b.hit).1.hits = b.hits - 1 ∧
    (b.hits - 1 ≤ 0 →
      (b.hit).1.destroyed = true ∧
      (brickScan ball rect (pre ++ b :: post)).2.1 = 10) ∧
    (0 < b.hits - 1 →
      (b.hit).1.destroyed = false ∧
      (brickScan ball rect (pre ++ b :: post)).2.1 = 5) := by
  have hs := brickScan_first ball rect b hb hi pre hpre post
  refine ⟨by rw [hs], Brick.hit_hits b, ?_, ?_⟩
  · intro hle
    refine ⟨(Brick.hit_of_le b hle).1, ?_⟩
    rw [hs, (Brick.hit_of_le b hle).2]
    rfl
  · intro hpos
    have hn : ¬(b.hits - 1 ≤ 0) := by omega
    refine ⟨(Brick.hit_of_pos b hn).1.trans hb, ?_⟩
    rw [hs, (Brick.hit_of_pos b hn).2]
    rfl

/-- Witness for C1: striking the two-hit demoBrick scores 5 and leaves it
undestroyed with one hit left; striking the result scores 10 and destroys
it. -/
theorem C1_witness :
    ((brickScan demoBall demoRect ([] ++ demoBrick :: [])).1 =
        [] ++ (demoBrick.hit).1 :: [] ∧
      (demoBrick.hit).1.hits = demoBrick.hits - 1 ∧
      (demoBrick.hits - 1 ≤ 0 →
        (demoBrick.hit).1.destroyed = true ∧
        (brickScan demoBall demoRect ([] ++ demoBrick :: [])).2.1 = 10) ∧
      (0 < demoBrick.hits - 1 →
        (demoBrick.hit).1.destroyed = false ∧
        (brickScan demoBall demoRect ([] ++ demoBrick :: [])).2.1 = 5)) ∧
    ((brickScan demoBall demoRect ([] ++ (demoBrick.hit).1 :: [])).1 =
        [] ++ ((demoBrick.hit).1.hit).1 :: [] ∧
      ((demoBrick.hit).1.hit).1.hits = (demoBrick.hit).1.hits - 1 ∧
      ((demoBrick.hit).1.hits - 1 ≤ 0 →
        ((demoBrick.hit).1.hit).1.destroyed = true ∧
        (brickScan demoBall demoRect ([] ++ (demoBrick.hit).1 :: [])).2.1 = 10) ∧
      (0 < (demoBrick.hit).1.hits - 1 →
        ((demoBrick.hit).1.hit).1.destroyed = false ∧
        (brickScan demoBall demoRect ([] ++ (demoBrick.hit).1 :: [])).2.1 = 5)) :=
  ⟨C1_brick_hit_scoring demoBall demoRect [] [] demoBrick (by simp)
      rfl (by norm_num [demoRect, demoBrick, Rect.intersects, Brick.get_rect]),
    C1_brick_hit_scoring demoBall demoRect [] [] (demoBrick.hit).1 (by simp)
      (by norm_num [demoBrick, Brick.hit])
      (by norm_num [demoRect, demoBrick, Brick.hit, Rect.intersects, Brick.get_rect])⟩

/-- Claim C4: per tick the brick scan touches at most one brick: with no
hittable brick the scan is the identity, and with a first hittable brick b
(everything before b destroyed or missed) the result replaces exactly b by
its hit version and leaves every brick after b untouched, scoring once. -/
theorem C4_at_most_one_brick (ball : Ball) (rect : Rect) (pre : List Brick)
    (b : Brick) (post : List Brick)
    (hpre : ∀ a ∈ pre, a.destroyed = true ∨ rect.intersects a.get_rect = false)
    (hb : b.destroyed = false) (hi : rect.intersects b.get_rect = true) :
    brickScan ball rect (pre ++ b :: post) =
      (pre ++ (b.hit).1 :: post, if (b.hit).2 then 10 else 5, brickBounce ball b) ∧
    (∀ a ∈ post, a.destroyed = false → rect.intersects a.get_rect = true →
      a ∈ (brickScan ball rect (pre ++ b :: post)).1) :=
  ⟨brickScan_first ball rect b hb hi pre hpre post,
    fun a ha _ _ => by
      rw [brickScan_first ball rect b hb hi pre hpre post]
      exact List.mem_append_right pre (List.mem_cons_of_mem _ ha)⟩

/-- Witness for C4: with a destroyed brick first and a second hittable brick
last, only demoBrick is replaced and demoBrick2 survives unchanged. -/
theorem C4_witness :
    brickScan demoBall demoRect ([demoBrickGone] ++ demoBrick :: [demoBrick2]) =
      ([demoBrickGone] ++ (demoBrick.hit).1 :: [demoBrick2],
        if (demoBrick.hit).2 then 10 else 5, brickBounce demoBall demoBrick) ∧
    (∀ a ∈ [demoBrick2], a.destroyed = false →
      demoRect.intersects a.get_rect = true →
      a ∈ (brickScan demoBall demoRect
        ([demoBrickGone] ++ demoBrick :: [demoBrick2])).1) :=
  C4_at_most_one_brick demoBall demoRect [demoBrickGone] demoBrick [demoBrick2]
    (by intro a ha; rw [List.mem_singleton.mp ha]; exact Or.inl rfl)
    rfl (by norm_num [demoRect, demoBrick, Rect.intersects, Brick.get_rect])

/-- Claim C2, counterexample: a grazing paddle hit (ball box intersecting
the paddle box, ball moving downward) produces speed_x = -65/12, which lies
outside the claimed range [-5, 5]. -/
theorem C2_counterexample :
    grazeBall.get_rect.intersects scenarioPaddle.get_rect = true ∧
    0 < grazeBall.speed_y ∧
    (paddleBounce scenarioPaddle grazeBall).speed_x = -65 / 12 ∧
    (paddleBounce scenarioPaddle grazeBall).speed_x < -5 := by
  have hi : grazeBall.get_rect.intersects scenarioPaddle.get_rect = true := by
    norm_num [Rect.intersects, Ball.get_rect, Paddle.get_rect, grazeBall,
      scenarioPaddle]
  have hy : (0 : ℚ) < grazeBall.speed_y := by norm_num [grazeBall]
  have hx : (paddleBounce scenarioPaddle grazeBall).speed_x = -65 / 12 := by
    unfold paddleBounce
    rw [if_pos ⟨hi, hy⟩]
    norm_num [grazeBall, scenarioPaddle, Ball.bounce_y]
  exact ⟨hi, hy, hx, by rw [hx]; norm_num⟩

/-- Claim C2 as amended: on a downward paddle hit, speed_y is negated and
speed_x becomes (hit_fraction - 1/2) * 10 with
hit_fraction = (ball.x - paddle.x) / paddle.width; the result lies in
[-5, 5] whenever the ball centre is within the paddle span (a grazing hit
with the centre outside the span can exceed the range); striking the
120-wide paddle at x = 340 with the ball at x = 400 yields speed_x = 0. -/
theorem C2_paddle_bounce (p : Paddle) (b : Ball)
    (h : b.get_rect.intersects p.get_rect = true ∧ 0 < b.speed_y) :
    (paddleBounce p b).speed_y = -b.speed_y ∧
    (paddleBounce p b).speed_x = ((b.x - p.x) / p.width - 1/2) * 10 ∧
    (0 < p.width → p.x ≤ b.x → b.x ≤ p.x + p.width →
      -5 ≤ (paddleBounce p b).speed_x ∧ (paddleBounce p b).speed_x ≤ 5) ∧
    (p.x = 340 → p.width = 120 → b.x = 400 → (paddleBounce p b).speed_x = 0) := by
  unfold paddleBounce
  rw [if_pos h]
  dsimp only
  refine ⟨rfl, rfl, ?_, ?_⟩
  · intro hw h1 h2
    have ht0 : 0 ≤ (b.x - p.x) / p.width := div_nonneg (by linarith) (le_of_lt hw)
    have ht1 : (b.x - p.x) / p.width ≤ 1 := (div_le_one hw).mpr (by linarith)
    constructor <;> linarith
  · intro hpx hpw hbx
    rw [hpx, hpw, hbx]
    norm_num

/-- Witness for C2 as amended: the straight-up bounce scenario, paddle at
x = 340 of width 120 struck at ball x = 400 moving down. -/
theorem C2_witness :
    (centerBall.get_rect.intersects scenarioPaddle.get_rect = true ∧
      0 < centerBall.speed_y) ∧
    ((paddleBounce scenarioPaddle centerBall).speed_y = -centerBall.speed_y ∧
      (paddleBounce scenarioPaddle centerBall).speed_x =
        ((centerBall.x - scenarioPaddle.x) / scenarioPaddle.width - 1/2) * 10 ∧
      (0 < scenarioPaddle.width → scenarioPaddle.x ≤ centerBall.x →
        centerBall.x ≤ scenarioPaddle.x + scenarioPaddle.width →
        -5 ≤ (paddleBounce scenarioPaddle centerBall).speed_x ∧
          (paddleBounce scenarioPaddle centerBall).speed_x ≤ 5) ∧
      (scenarioPaddle.x = 340 → scenarioPaddle.width = 120 → centerBall.x = 400 →
        (paddleBounce scenarioPaddle centerBall).speed_x = 0)) :=
  ⟨⟨by norm_num [Rect.intersects, Ball.get_rect, Paddle.get_rect, centerBall,
      scenarioPaddle], by norm_num [centerBall]⟩,
    C2_paddle_bounce scenarioPaddle centerBall
      ⟨by norm_num [Rect.intersects, Ball.get_rect, Paddle.get_rect, centerBall,
        scenarioPaddle], by norm_num [centerBall]⟩⟩

@[simp] theorem paddleInput_width (inp : Input) (W : ℚ) (p : Paddle) :
    (paddleInput inp W p).width = p.width := by
  unfold paddleInput Paddle.move_left Paddle.move_right
  dsimp only
  split_ifs <;> rfl

@[simp] theorem paddleInput_y (inp : Input) (W : ℚ) (p : Paddle) :
    (paddleInput inp W p).y = p.y := by
  unfold paddleInput Paddle.move_left Paddle.move_right
  dsimp only
  split_ifs <;> rfl

/-- A tick on an inactive session is a no-op: game_loop returns the state
unchanged. -/
theorem game_loop_inactive (inp : Input) (s : GameState)
    (h : s.game_active = false) : game_loop inp s = s := by
  unfold game_loop
  rw [if_pos h]

/-- Characterisation of a free tick whose moved ball exits the bottom while
some undestroyed brick stays untouched by the ball: exactly one life is
lost; when lives remain the ball is reset to Attached with speed (5, -5)
and the session stays active; when none remain the session ends as a
loss. -/
theorem game_loop_bottom_exit (inp : Input) (s : GameState)
    (hact : s.game_active = true) (hatt : s.ball_attached = false)
    (hexit : s.screen_h < s.ball.move.y - s.ball.radius)
    (hsurv : s.bricks.any (fun b => !b.destroyed &&
      !(Rect.intersects (Ball.get_rect (wallBounce s.screen_w s.ball.move))
        b.get_rect)) = true) :
    (game_loop inp s).lives = s.lives - 1 ∧
    (0 < s.lives - 1 →
      (game_loop inp s).ball_attached = true ∧
      (game_loop inp s).ball.speed_x = 5 ∧
      (game_loop inp s).ball.speed_y = -5 ∧
      (game_loop inp s).game_active = true ∧
      (game_loop inp s).outcome = s.outcome) ∧
    (s.lives - 1 ≤ 0 →
      (game_loop inp s).game_active = false ∧
      (game_loop inp s).outcome = some false) := by
  have h1 : ¬(s.game_active = false) := by
    rw [hact]; exact fun h => Bool.noConfusion h
  have h2 : ¬(s.ball_attached = true) := by
    rw [hatt]; exact fun h => Bool.noConfusion h
  obtain ⟨bb, hmem, hbb⟩ := List.any_eq_true.mp hsurv
  rw [Bool.and_eq_true, Bool.not_eq_true', Bool.not_eq_true'] at hbb
  have hin := brickScan_mem_untouched
    (paddleBounce (paddleInput inp s.screen_w s.paddle)
      (wallBounce s.screen_w s.ball.move))
    (Ball.get_rect (wallBounce s.screen_w s.ball.move)) bb hbb.1 hbb.2
    s.bricks hmem
  have hnall : ¬(((brickScan
      (paddleBounce (paddleInput inp s.screen_w s.paddle)
        (wallBounce s.screen_w s.ball.move))
      (Ball.get_rect (wallBounce s.screen_w s.ball.move)) s.bricks).1.all
      (fun b => b.destroyed)) = true) := by
    intro hall
    have hd := List.all_eq_true.mp hall bb hin
    rw [hbb.1] at hd
    exact Bool.noConfusion hd
  have hexit2 : s.screen_h <
      (brickScan
        (paddleBounce (paddleInput inp s.screen_w s.paddle)
          (wallBounce s.screen_w s.ball.move))
        (Ball.get_rect (wallBounce s.screen_w s.ball.move)) s.bricks).2.2.y -
      (brickScan
        (paddleBounce (paddleInput inp s.screen_w s.paddle)
          (wallBounce s.screen_w s.ball.move))
        (Ball.get_rect (wallBounce s.screen_w s.ball.move)) s.bricks).2.2.radius := by
    simpa using hexit
  unfold game_loop
  rw [if_neg h1, if_neg h2]
  dsimp only
  rw [if_pos hexit2]
  by_cases hl : s.lives - 1 ≤ 0
  · rw [if_pos hl]
    dsimp only [end_game]
    rw [if_neg hnall]
    exact ⟨rfl, fun h0 => absurd hl (by omega), fun _ => ⟨rfl, rfl⟩⟩
  · rw [if_neg hl]
    dsimp only [reset_ball]
    rw [if_neg hnall]
    exact ⟨rfl, fun _ => ⟨rfl, rfl, rfl, hact, rfl⟩, fun hle => absurd hle hl⟩

/-- Claim C3: on any tick where the free ball has passed below the bottom
of the field (with some undestroyed brick left untouched by the ball),
exactly one life is lost; if lives remain after the decrement the ball is
reset to the Attached state with velocity (5, -5) and the session stays
active; if no lives remain the session ends as a loss. -/
theorem C3_life_loss (inp : Input) (s : GameState)
    (hact : s.game_active = true) (hatt : s.ball_attached = false)
    (hexit : s.screen_h < s.ball.move.y - s.ball.radius)
    (hsurv : s.bricks.any (fun b => !b.destroyed &&
      !(Rect.intersects (Ball.get_rect (wallBounce s.screen_w s.ball.move))
        b.get_rect)) = true) :
    (game_loop inp s).lives = s.lives - 1 ∧
    (0 < s.lives - 1 →
      (game_loop inp s).ball_attached = true ∧
      (game_loop inp s).ball.speed_x = 5 ∧
      (game_loop inp s).ball.speed_y = -5 ∧
      (game_loop inp s).game_active = true ∧
      (game_loop inp s).outcome = s.outcome) ∧
    (s.lives - 1 ≤ 0 →
      (game_loop inp s).game_active = false ∧
      (game_loop inp s).outcome = some false) :=
  game_loop_bottom_exit inp s hact hatt hexit hsurv

/-- Witness for C3: the fall scenario with three lives leaves two lives,
the ball attached with speed (5, -5), and the session active. -/
theorem C3_witness :
    ((game_loop demoInput fallState).lives = fallState.lives - 1 ∧
      (0 < fallState.lives - 1 →
        (game_loop demoInput fallState).ball_attached = true ∧
        (game_loop demoInput fallState).ball.speed_x = 5 ∧
        (game_loop demoInput fallState).ball.speed_y = -5 ∧
        (game_loop demoInput fallState).game_active = true ∧
        (game_loop demoInput fallState).outcome = fallState.outcome) ∧
      (fallState.lives - 1 ≤ 0 →
        (game_loop demoInput fallState).game_active = false ∧
        (game_loop demoInput fallState).outcome = some false)) ∧
    fallState.lives = 3 ∧ (0 : ℤ) < 3 - 1 :=
  ⟨C3_life_loss demoInput fallState rfl rfl
      (by norm_num [fallState, demoPaddle, Ball.move])
      (by norm_num [fallState, demoPaddle, demoBrick, Ball.move, wallBounce,
        Ball.bounce_x, Ball.bounce_y, Ball.get_rect, Brick.get_rect,
        Rect.intersects]),
    rfl, by decide⟩

/-- Claim C6: when the brick scan of a tick leaves every brick destroyed,
win detection fires on that same tick: the session ends as a win in the
same game_loop invocation, with no condition on remaining lives. -/
theorem C6_win_same_tick (inp : Input) (s : GameState)
    (hact : s.game_active = true) (hatt : s.ball_attached = false)
    (hall : ((brickScan (paddleBounce (paddleInput inp s.screen_w s.paddle)
        (wallBounce s.screen_w s.ball.move))
        (Ball.get_rect (wallBounce s.screen_w s.ball.move)) s.bricks).1.all
        (fun b => b.destroyed)) = true) :
    (game_loop inp s).game_active = false ∧
    (game_loop inp s).outcome = some true := by
  have h1 : ¬(s.game_active = false) := by
    rw [hact]; exact fun h => Bool.noConfusion h
  have h2 : ¬(s.ball_attached = true) := by
    rw [hatt]; exact fun h => Bool.noConfusion h
  unfold game_loop
  rw [if_neg h1, if_neg h2]
  dsimp only [end_game, reset_ball]
  split_ifs with hx hl <;> exact ⟨rfl, rfl⟩

/-- Witness for C6: destroying the last one-hit brick ends the session as a
win on that very tick, even with a single life left. -/
theorem C6_witness :
    ((brickScan (paddleBounce (paddleInput demoInput winState.screen_w
        winState.paddle) (wallBounce winState.screen_w winState.ball.move))
        (Ball.get_rect (wallBounce winState.screen_w winState.ball.move))
        winState.bricks).1.all (fun b => b.destroyed)) = true ∧
    (game_loop demoInput winState).game_active = false ∧
    (game_loop demoInput winState).outcome = some true := by
  have hall : ((brickScan (paddleBounce (paddleInput demoInput
      winState.screen_w winState.paddle)
      (wallBounce winState.screen_w winState.ball.move))
      (Ball.get_rect (wallBounce winState.screen_w winState.ball.move))
      winState.bricks).1.all (fun b => b.destroyed)) = true := by
    norm_num [winState, lastBrick, demoPaddle, demoInput, Ball.move,
      wallBounce, paddleBounce, paddleInput, Paddle.move_left,
      Paddle.move_right, Ball.bounce_x, Ball.bounce_y, Ball.get_rect,
      Paddle.get_rect, Brick.get_rect, Rect.intersects, brickScan,
      Brick.hit, brickBounce]
  exact ⟨hall, C6_win_same_tick demoInput winState rfl rfl hall⟩

/-- Claim C7: a terminal session is frozen: a tick on an inactive state is
the identity, so a terminal state is reached at most once; with one life, a
bottom exit (leaving an untouched undestroyed brick) makes the session end
as a loss with zero lives, and every further tick is a no-op. -/
theorem C7_terminal_idempotent (inp : Input) (s : GameState) :
    (s.game_active = false → game_loop inp s = s) ∧
    (s.game_active = true → s.ball_attached = false → s.lives = 1 →
      s.screen_h < s.ball.move.y - s.ball.radius →
      s.bricks.any (fun b => !b.destroyed &&
        !(Rect.intersects (Ball.get_rect (wallBounce s.screen_w s.ball.move))
          b.get_rect)) = true →
      (game_loop inp s).game_active = false ∧
      (game_loop inp s).outcome = some false ∧
      (game_loop inp s).lives = 0 ∧
      ∀ inp2 : Input, game_loop inp2 (game_loop inp s) = game_loop inp s) := by
  refine ⟨game_loop_inactive inp s, ?_⟩
  intro hact hatt hlives hexit hsurv
  obtain ⟨hl, _, hloss⟩ := game_loop_bottom_exit inp s hact hatt hexit hsurv
  obtain ⟨hga, hoc⟩ := hloss (by omega)
  refine ⟨hga, hoc, ?_, fun inp2 => game_loop_inactive inp2 _ hga⟩
  rw [hl, hlives]
  decide

/-- Witness for C7: a tick on the already terminal state is the identity,
and the one-life fall scenario ends as a loss, after which a further tick
changes nothing. -/
theorem C7_witness :
    game_loop demoInput terminalState = terminalState ∧
    (game_loop demoInput lossState).game_active = false ∧
    (game_loop demoInput lossState).outcome = some false ∧
    (game_loop demoInput lossState).lives = 0 ∧
    game_loop demoInput (game_loop demoInput lossState) =
      game_loop demoInput lossState := by
  have hexit : lossState.screen_h < lossState.ball.move.y - lossState.ball.radius := by
    norm_num [lossState, fallState, demoPaddle, Ball.move]
  have hsurv : lossState.bricks.any (fun b => !b.destroyed &&
      !(Rect.intersects (Ball.get_rect
        (wallBounce lossState.screen_w lossState.ball.move)) b.get_rect)) = true := by
    norm_num [lossState, fallState, demoPaddle, demoBrick, Ball.move,
      wallBounce, Ball.bounce_x, Ball.bounce_y, Ball.get_rect,
      Brick.get_rect, Rect.intersects]
  obtain ⟨hga, hoc, hl, hid⟩ :=
    (C7_terminal_idempotent demoInput lossState).2 rfl rfl rfl hexit hsurv
  exact ⟨(C7_terminal_idempotent demoInput terminalState).1 rfl, hga, hoc, hl,
    hid demoInput⟩

/-- Claim C10: on an active tick with the ball attached, no collision
resolution runs: score, lives, bricks, activity, outcome and attachment are
unchanged, the ball keeps its speed components and radius, its position is
set to (paddle.x + paddle.width // 2, paddle.y - radius - 5) over the
paddle after input is applied; with the game paddle width 120 this equals
paddle.x + paddle.width / 2. -/
theorem C10_attached_tick (inp : Input) (s : GameState)
    (hact : s.game_active = true) (hatt : s.ball_attached = true) :
    (game_loop inp s).score = s.score ∧
    (game_loop inp s).lives = s.lives ∧
    (game_loop inp s).bricks = s.bricks ∧
    (game_loop inp s).game_active = s.game_active ∧
    (game_loop inp s).outcome = s.outcome ∧
    (game_loop inp s).ball_attached = s.ball_attached ∧
    (game_loop inp s).paddle = paddleInput inp s.screen_w s.paddle ∧
    (game_loop inp s).ball.speed_x = s.ball.speed_x ∧
    (game_loop inp s).ball.speed_y = s.ball.speed_y ∧
    (game_loop inp s).ball.radius = s.ball.radius ∧
    (game_loop inp s).ball.speed_multiplier = s.ball.speed_multiplier ∧
    (game_loop inp s).ball.x =
      (paddleInput inp s.screen_w s.paddle).x +
        floorDiv (paddleInput inp s.screen_w s.paddle).width 2 ∧
    (game_loop inp s).ball.y =
      (paddleInput inp s.screen_w s.paddle).y - s.ball.radius - 5 ∧
    (s.paddle.width = 120 →
      (game_loop inp s).ball.x =
        (paddleInput inp s.screen_w s.paddle).x + s.paddle.width / 2) := by
  have h1 : ¬(s.game_active = false) := by
    rw [hact]; exact fun h => Bool.noConfusion h
  unfold game_loop
  rw [if_neg h1, if_pos hatt]
  dsimp only
  refine ⟨rfl, rfl, rfl, rfl, rfl, rfl, rfl, rfl, rfl, rfl, rfl, rfl, rfl, ?_⟩
  intro hw
  rw [paddleInput_width, hw]
  norm_num [floorDiv]

/-- Witness for C10: a tick on the attached demo state repositions the ball
over the paddle and changes nothing else. -/
theorem C10_witness :
    attachState.game_active = true ∧ attachState.ball_attached = true ∧
    ((game_loop demoInput attachState).score = attachState.score ∧
      (game_loop demoInput attachState).lives = attachState.lives ∧
      (game_loop demoInput attachState).bricks = attachState.bricks ∧
      (game_loop demoInput attachState).game_active = attachState.game_active ∧
      (game_loop demoInput attachState).outcome = attachState.outcome ∧
      (game_loop demoInput attachState).ball_attached = attachState.ball_attached ∧
      (game_loop demoInput attachState).paddle =
        paddleInput demoInput attachState.screen_w attachState.paddle ∧
      (game_loop demoInput attachState).ball.speed_x = attachState.ball.speed_x ∧
      (game_loop demoInput attachState).ball.speed_y = attachState.ball.speed_y ∧
      (game_loop demoInput attachState).ball.radius = attachState.ball.radius ∧
      (game_loop demoInput attachState).ball.speed_multiplier =
        attachState.ball.speed_multiplier ∧
      (game_loop demoInput attachState).ball.x =
        (paddleInput demoInput attachState.screen_w attachState.paddle).x +
          floorDiv (paddleInput demoInput attachState.screen_w
            attachState.paddle).width 2 ∧
      (game_loop demoInput attachState).ball.y =
        (paddleInput demoInput attachState.screen_w attachState.paddle).y -
          attachState.ball.radius - 5 ∧
      (attachState.paddle.width = 120 →
        (game_loop demoInput attachState).ball.x =
          (paddleInput demoInput attachState.screen_w attachState.paddle).x +
            attachState.paddle.width / 2)) :=
  ⟨rfl, rfl, C10_attached_tick demoInput attachState rfl rfl⟩

/-! ### Multi-tick brick invariants -/

theorem brickStep_refl_list (l : List Brick) : List.Forall₂ BrickStep l l :=
  List.forall₂_same.mpr (fun _ _ => Or.inl rfl)

theorem brickStep_evolves {b b2 : Brick} (h : BrickStep b b2) :
    BrickEvolves b b2 := by
  rcases h with h | ⟨hd, h⟩
  · subst h; exact ⟨le_refl _, fun _ => rfl⟩
  · subst h
    refine ⟨?_, fun hdt => ?_⟩
    · rw [Brick.hit_hits]; omega
    · rw [hd] at hdt; exact Bool.noConfusion hdt

theorem brickStep_wf {b b2 : Brick} (hwf : BrickWF b) (h : BrickStep b b2) :
    BrickWF b2 := by
  rcases h with h | ⟨hd, h⟩
  · subst h; exact hwf
  · subst h
    have h1 := Brick.hit_hits b
    by_cases hle : b.hits - 1 ≤ 0
    · obtain ⟨hdt, _⟩ := Brick.hit_of_le b hle
      constructor
      · intro _
        have := hwf.2 hd
        omega
      · intro hdf
        rw [hdt] at hdf
        exact Bool.noConfusion hdf
    · obtain ⟨hdt, _⟩ := Brick.hit_of_pos b hle
      constructor
      · intro hdt2
        rw [hdt, hd] at hdt2
        exact Bool.noConfusion hdt2
      · intro _
        rw [h1]; omega

theorem brickEvolves_trans {a b c : Brick} (h1 : BrickEvolves a b)
    (h2 : BrickEvolves b c) : BrickEvolves a c := by
  refine ⟨le_trans h2.1 h1.1, fun hd => ?_⟩
  have hb := h1.2 hd
  have hc := h2.2 (by rw [hb]; exact hd)
  rw [hc, hb]

theorem forall2_evolves_trans {l1 l2 l3 : List Brick}
    (h12 : List.Forall₂ BrickEvolves l1 l2)
    (h23 : List.Forall₂ BrickEvolves l2 l3) :
    List.Forall₂ BrickEvolves l1 l3 := by
  induction h12 generalizing l3 with
  | nil => cases h23; exact List.Forall₂.nil
  | cons hab htail ih =>
    cases h23 with
    | cons hbc ttail => exact List.Forall₂.cons (brickEvolves_trans hab hbc) (ih ttail)

theorem forall2_mem_right {R : Brick → Brick → Prop} {l1 l2 : List Brick}
    (h : List.Forall₂ R l1 l2) : ∀ b2 ∈ l2, ∃ b ∈ l1, R b b2 := by
  induction h with
  | nil => intro b2 hb2; exact absurd hb2 (List.not_mem_nil b2)
  | cons hab htail ih =>
    intro b2 hb2
    rcases List.mem_cons.mp hb2 with h | h
    · subst h; exact ⟨_, List.mem_cons_self _ _, hab⟩
    · obtain ⟨b, hb, hr⟩ := ih b2 h
      exact ⟨b, List.mem_cons_of_mem _ hb, hr⟩

theorem forall2_get2 {R : Brick → Brick → Prop} {l1 l2 : List Brick}
    (h : List.Forall₂ R l1 l2) :
    ∀ (i : ℕ) (b b2 : Brick), l1.get? i = some b → l2.get? i = some b2 →
      R b b2 := by
  induction h with
  | nil => intro i b b2 hb _; exact absurd hb (by simp)
  | cons hab htail ih =>
    intro i b b2 hb hb2
    cases i with
    | zero =>
      rw [List.get?_cons_zero] at hb hb2
      rw [(Option.some.injEq _ _).mp hb] at hab
      rw [(Option.some.injEq _ _).mp hb2] at hab
      exact hab
    | succ n =>
      rw [List.get?_cons_succ] at hb hb2
      exact ih n b b2 hb hb2

/-- Any single tick relates the brick list to its successor pointwise by
BrickStep: inactive and attached ticks leave the bricks alone, a free tick
runs the scan. -/
theorem game_loop_bricks_forall2 (inp : Input) (s : GameState) :
    List.Forall₂ BrickStep s.bricks (game_loop inp s).bricks := by
  unfold game_loop
  dsimp only [end_game, reset_ball]
  split_ifs <;>
    first
      | exact brickStep_refl_list s.bricks
      | exact brickScan_forall2 _ _ s.bricks

theorem runTicks_bricks_evolves (inputs : List Input) :
    ∀ s : GameState, List.Forall₂ BrickEvolves s.bricks (runTicks inputs s).bricks := by
  induction inputs with
  | nil => intro s; exact List.forall₂_same.mpr (fun _ _ => ⟨le_refl _, fun _ => rfl⟩)
  | cons i rest ih =>
    intro s
    exact forall2_evolves_trans
      (List.Forall₂.imp (fun _ _ hab => brickStep_evolves hab)
        (game_loop_bricks_forall2 i s))
      (ih (game_loop i s))

theorem runTicks_bricks_wf (inputs : List Input) :
    ∀ s : GameState, (∀ b ∈ s.bricks, BrickWF b) →
      ∀ b2 ∈ (runTicks inputs s).bricks, BrickWF b2 := by
  induction inputs with
  | nil => intro s h; exact h
  | cons i rest ih =>
    intro s h
    refine ih (game_loop i s) ?_
    intro b2 hb2
    obtain ⟨b, hb, hstep⟩ := forall2_mem_right (game_loop_bricks_forall2 i s) b2 hb2
    exact brickStep_wf (h b hb) hstep

/-- A destroyed brick is invisible to the scan: removing it from the list
changes neither the score delta nor the resulting ball. -/
theorem brickScan_skip_destroyed (ball : Ball) (rect : Rect) (b : Brick)
    (hd : b.destroyed = true) :
    ∀ pre post : List Brick,
      (brickScan ball rect (pre ++ b :: post)).2 =
        (brickScan ball rect (pre ++ post)).2
  | [], post => by
    have hna : ¬(b.destroyed = false ∧ rect.intersects b.get_rect = true) := by
      rintro ⟨h1, _⟩; rw [hd] at h1; exact Bool.noConfusion h1
    simp only [List.nil_append, brickScan, if_neg hna]
  | a :: pre, post => by
    by_cases ha : a.destroyed = false ∧ rect.intersects a.get_rect = true
    · simp only [List.cons_append, brickScan, if_pos ha]
    · simp only [List.cons_append, brickScan, if_neg ha, List.append_eq]
      rw [brickScan_skip_destroyed ball rect b hd pre post]

/-- Every brick of the create_bricks layout starts undestroyed with a
positive hit count, so a fresh session satisfies BrickWF. -/
theorem create_bricks_wf (W : ℚ) :
    ∀ b ∈ create_bricks W, BrickWF b ∧ b.destroyed = false := by
  intro b hb
  unfold create_bricks at hb
  simp only [List.mem_flatMap, List.mem_map, List.mem_range] at hb
  obtain ⟨row, _, col, _, rfl⟩ := hb
  refine ⟨⟨fun hdt => Bool.noConfusion hdt, fun _ => ?_⟩, rfl⟩
  dsimp only
  split_ifs <;> omega

/-- Claim C5: across a whole session segment, each brick at position i has
a non-increasing hit count, a brick destroyed at the start is completely
untouched by every later tick, every destroyed brick carries zero hits
(given the well-formed start every session has), a destroyed brick takes no
part in any collision scan, and the fresh layout is well formed. -/
theorem C5_brick_invariants (inputs : List Input) (s : GameState) (i : ℕ)
    (b b2 : Brick)
    (hb : s.bricks.get? i = some b)
    (hb2 : (runTicks inputs s).bricks.get? i = some b2)
    (hwf : ∀ a ∈ s.bricks, BrickWF a) :
    (runTicks inputs s).bricks.length = s.bricks.length ∧
    b2.hits ≤ b.hits ∧
    (b.destroyed = true → b2 = b) ∧
    (b2.destroyed = true → b2.hits = 0) ∧
    (∀ (ball : Ball) (rect : Rect) (pre post : List Brick) (c : Brick),
      c.destroyed = true →
      (brickScan ball rect (pre ++ c :: post)).2 =
        (brickScan ball rect (pre ++ post)).2) ∧
    (∀ W : ℚ, ∀ c ∈ create_bricks W, BrickWF c ∧ c.destroyed = false) := by
  have hev := runTicks_bricks_evolves inputs s
  have hstep := forall2_get2 hev i b b2 hb hb2
  refine ⟨hev.length_eq.symm, hstep.1, hstep.2, ?_, ?_, create_bricks_wf⟩
  · intro hd
    have hmem : b2 ∈ (runTicks inputs s).bricks := List.get?_mem hb2
    exact (runTicks_bricks_wf inputs s hwf b2 hmem).1 hd
  · intro ball rect pre post c hd
    exact brickScan_skip_destroyed ball rect c hd pre post

/-- Witness for C5 at the attached demo state and the empty input segment:
position 1 holds the already destroyed demo brick. -/
theorem C5_witness :
    attachState.bricks.get? 1 = some demoBrickGone ∧
    (runTicks [] attachState).bricks.get? 1 = some demoBrickGone ∧
    (∀ a ∈ attachState.bricks, BrickWF a) ∧
    ((runTicks [] attachState).bricks.length = attachState.bricks.length ∧
      demoBrickGone.hits ≤ demoBrickGone.hits ∧
      (demoBrickGone.destroyed = true → demoBrickGone = demoBrickGone) ∧
      (demoBrickGone.destroyed = true → demoBrickGone.hits = 0) ∧
      (∀ (ball : Ball) (rect : Rect) (pre post : List Brick) (c : Brick),
        c.destroyed = true →
        (brickScan ball rect (pre ++ c :: post)).2 =
          (brickScan ball rect (pre ++ post)).2) ∧
      (∀ W : ℚ, ∀ c ∈ create_bricks W, BrickWF c ∧ c.destroyed = false)) :=
  ⟨rfl, rfl,
    by norm_num [attachState, demoBrick, demoBrickGone, BrickWF],
    C5_brick_invariants [] attachState 1 demoBrickGone demoBrickGone rfl rfl
      (by norm_num [attachState, demoBrick, demoBrickGone, BrickWF])⟩

/-! ### Launcher claims -/

/-- Claim C9: a missing or malformed settings file never causes a hard
failure; load_settings falls back to the defaults: 0 for the click game,
0 for the brick game, and the large sentinel 999 for the memory game. -/
theorem C9_load_settings_defaults (f : SettingsFile)
    (h : f = SettingsFile.missing ∨ f = SettingsFile.malformed) :
    (load_settings f).1 = default_settings ∧
    (load_settings f).1.click_game = 0 ∧
    (load_settings f).1.brick_game = 0 ∧
    (load_settings f).1.memory_game = 999 := by
  rcases h with h | h <;> subst h <;> exact ⟨rfl, rfl, rfl, rfl⟩

/-- Witness for C9 at the concrete input missing. -/
theorem C9_witness :
    (load_settings SettingsFile.missing).1 = default_settings ∧
    (load_settings SettingsFile.missing).1.click_game = 0 ∧
    (load_settings SettingsFile.missing).1.brick_game = 0 ∧
    (load_settings SettingsFile.missing).1.memory_game = 999 :=
  C9_load_settings_defaults SettingsFile.missing (Or.inl rfl)

/-- Claim C8, counterexample: a brick-game session that ends with score 0
while the stored best is 5 leaves the persisted record untouched and does
not call save_settings, so the record is not rewritten after every session
end. -/
theorem C8_counterexample :
    on_brick_game_ended ⟨0, 5, 999⟩ 0 = (⟨0, 5, 999⟩, false) := by
  decide

/-- Claim C8 as amended: after a session ends, the stored best of the ended
game becomes the maximum of the old best and the new score for the click and
brick games, and the minimum of the old best and the move count for the
memory game; the other two entries are untouched, and the record is written
back to disk exactly when the stored best strictly improved. -/
theorem C8_high_score_update (hs : HighScores) (n : ℤ) :
    (on_click_game_ended hs n).1.click_game = max hs.click_game n ∧
    ((on_click_game_ended hs n).2 = true ↔ hs.click_game < n) ∧
    (on_click_game_ended hs n).1.brick_game = hs.brick_game ∧
    (on_click_game_ended hs n).1.memory_game = hs.memory_game ∧
    (on_brick_game_ended hs n).1.brick_game = max hs.brick_game n ∧
    ((on_brick_game_ended hs n).2 = true ↔ hs.brick_game < n) ∧
    (on_brick_game_ended hs n).1.click_game = hs.click_game ∧
    (on_brick_game_ended hs n).1.memory_game = hs.memory_game ∧
    (on_memory_game_ended hs n).1.memory_game = min hs.memory_game n ∧
    ((on_memory_game_ended hs n).2 = true ↔ n < hs.memory_game) ∧
    (on_memory_game_ended hs n).1.click_game = hs.click_game ∧
    (on_memory_game_ended hs n).1.brick_game = hs.brick_game := by
  unfold on_click_game_ended on_brick_game_ended on_memory_game_ended
    update_high_score HighScores.get HighScores.set
  refine ⟨?_, ?_, ?_, ?_, ?_, ?_, ?_, ?_, ?_, ?_, ?_, ?_⟩ <;>
    split_ifs with h <;> simp_all <;> omega

end DesktopMiniGame
